import Mathlib

/-!
# Verification of the crisis risk-assessment and escalation engine

Shallow embedding of `backend/services/crisis_service.py`
(`CrisisDetectionService`): the pattern catalog, pattern scoring,
crisis-level determination, confidence calculation, intervention and
resource generation, assessment pipeline and escalation protocol.

Python floats are modelled as exact rationals (`ℚ`); all literals in the
source are small decimal fractions, so every arithmetic step of the
algorithm is expressed exactly.  Python's `needle in haystack` substring
test is modelled by prefix-of-suffix search on the character lists.
-/

namespace CrisisService

/-- `CrisisLevel` enum of `crisis_service.py`. -/
inductive CrisisLevel where
  | none
  | low
  | medium
  | high
  | critical
deriving DecidableEq, Repr

/-- `RiskFactor` enum of `crisis_service.py`. -/
inductive RiskFactor where
  | suicidal_ideation
  | self_harm
  | substance_abuse
  | isolation
  | hopelessness
  | depression
  | anxiety
  | trauma
  | relationship_issues
  | financial_stress
deriving DecidableEq, Repr

/-- `CrisisKeywordPattern` dataclass. -/
structure CrisisKeywordPattern where
  keywords : List String
  risk_factor : RiskFactor
  severity_weight : ℚ
  requires_immediate_action : Bool := false
  context_modifiers : List String := []
deriving DecidableEq, Repr

/-- Output shape of a safety-resource dictionary as returned by
`_get_relevant_resources` (fields `name, type, contact, description,
availability`). -/
structure ResourceOut where
  name : String
  type : String
  contact : String
  description : String
  availability : String
deriving DecidableEq, Repr

/-- `SafetyResource` dataclass. -/
structure SafetyResource where
  name : String
  type : String
  contact : String
  availability : String
  description : String
  country_code : String := "US"
  language : String := "en"
  is_emergency : Bool := false
deriving DecidableEq, Repr

/-- `RiskAssessment` dataclass (the `assessment_timestamp` field, a wall
clock read, is not modelled). -/
structure RiskAssessment where
  user_id : String
  trigger_content : String
  crisis_level : CrisisLevel
  risk_score : ℚ
  detected_factors : List RiskFactor
  confidence : ℚ
  immediate_action_required : Bool
  recommended_interventions : List String
  safety_resources : List ResourceOut
  escalation_needed : Bool
deriving DecidableEq, Repr

/-- Substring occurrence on character lists: the needle is a prefix of
some suffix of the haystack. -/
def charsInfixOf (needle : List Char) : List Char → Bool
  | [] => needle.isEmpty
  | c :: rest => needle.isPrefixOf (c :: rest) || charsInfixOf needle rest

/-- Python's `needle in haystack` on strings: substring occurrence. -/
def occursIn (needle haystack : String) : Bool :=
  charsInfixOf needle.toList haystack.toList

/-- `_initialize_crisis_patterns`: the static pattern catalog, transcribed
verbatim. -/
def crisis_patterns : List CrisisKeywordPattern :=
  [ { keywords :=
        [ "suicide", "kill myself", "end my life", "want to die",
          "better off dead", "not worth living", "take my own life",
          "end it all", "don\x27t want to be here", "world without me" ],
      risk_factor := RiskFactor.suicidal_ideation,
      severity_weight := 1.0,
      requires_immediate_action := true,
      context_modifiers := ["plan", "method", "when", "how", "tonight", "today"] },
    { keywords :=
        [ "hurt myself", "cut myself", "self harm", "self-harm",
          "cutting", "burning", "hitting myself", "punish myself",
          "deserve pain", "make it stop" ],
      risk_factor := RiskFactor.self_harm,
      severity_weight := 0.9,
      requires_immediate_action := true },
    { keywords :=
        [ "hopeless", "no point", "pointless", "give up", "can\x27t go on",
          "no future", "nothing matters", "why bother", "no way out",
          "trapped", "stuck forever" ],
      risk_factor := RiskFactor.hopelessness,
      severity_weight := 0.8,
      context_modifiers := ["always", "never", "forever", "everyone", "nothing"] },
    { keywords :=
        [ "want to disappear", "invisible", "burden to everyone",
          "everyone hates me", "worthless", "useless", "failure",
          "can\x27t do anything right", "ruined everything" ],
      risk_factor := RiskFactor.depression,
      severity_weight := 0.7 },
    { keywords :=
        [ "drinking too much", "can\x27t stop drinking", "need drugs",
          "overdose", "too many pills", "using again", "relapsed",
          "out of control", "addiction" ],
      risk_factor := RiskFactor.substance_abuse,
      severity_weight := 0.6 },
    { keywords :=
        [ "nobody cares", "all alone", "no friends", "isolated",
          "pushing everyone away", "can\x27t talk to anyone",
          "no one understands", "abandoned" ],
      risk_factor := RiskFactor.isolation,
      severity_weight := 0.5 },
    { keywords :=
        [ "flashbacks", "nightmares", "can\x27t forget", "reliving",
          "traumatized", "ptsd", "triggered", "memories won\x27t stop" ],
      risk_factor := RiskFactor.trauma,
      severity_weight := 0.6 } ]

/-- The negation terms checked by `_evaluate_pattern`. -/
def negation_patterns : List String :=
  ["not", "don\x27t", "won\x27t", "never", "wouldn\x27t"]

/-- Number of the pattern's keywords matching the content (the
`keyword_matches` counter of `_evaluate_pattern`). -/
def keywordMatchCount (content : String) (p : CrisisKeywordPattern) : Nat :=
  (p.keywords.filter (fun k => occursIn k content)).length

/-- The `context_bonus` accumulator of `_evaluate_pattern`: `0.1` per
context modifier present in the content. -/
def contextBonus (content : String) (p : CrisisKeywordPattern) : ℚ :=
  ((p.context_modifiers.filter (fun m => occursIn m content)).length : ℚ) * 0.1

/-- The negation check of `_evaluate_pattern`. -/
def negationFound (content : String) : Bool :=
  negation_patterns.any (fun n => occursIn n content)

/-- `_evaluate_pattern`: score one pattern against (already lower-cased)
content. -/
def evaluatePattern (content : String) (p : CrisisKeywordPattern) : ℚ :=
  let nMatches := keywordMatchCount content p
  if nMatches = 0 then 0
  else
    let score : ℚ := (nMatches : ℚ) * (p.severity_weight * 0.3)
    let score := if 1 < nMatches then score + p.severity_weight * 0.2 else score
    let score := score + min (contextBonus content p) (p.severity_weight * 0.3)
    let score := if negationFound content then score * 0.7 else score
    min score 1

/-- The same computation as `evaluatePattern` with the negation
multiplication omitted: "the score the same content would receive without
the negation term present", used to state the dampening property. -/
def evaluatePatternNoNegation (content : String) (p : CrisisKeywordPattern) : ℚ :=
  let nMatches := keywordMatchCount content p
  if nMatches = 0 then 0
  else
    let score : ℚ := (nMatches : ℚ) * (p.severity_weight * 0.3)
    let score := if 1 < nMatches then score + p.severity_weight * 0.2 else score
    let score := score + min (contextBonus content p) (p.severity_weight * 0.3)
    min score 1

/-- `_determine_crisis_level`: map risk score and detected factors to a
crisis level. -/
def determineCrisisLevel (risk_score : ℚ) (detected_factors : List RiskFactor) :
    CrisisLevel :=
  if RiskFactor.suicidal_ideation ∈ detected_factors ∧ risk_score > 0.8 then
    CrisisLevel.critical
  else if risk_score > 0.7 ∨
      RiskFactor.suicidal_ideation ∈ detected_factors ∨
      RiskFactor.self_harm ∈ detected_factors ∨
      (RiskFactor.hopelessness ∈ detected_factors ∧ risk_score > 0.6) then
    CrisisLevel.high
  else if risk_score > 0.4 ∨ detected_factors.length ≥ 2 ∨
      RiskFactor.hopelessness ∈ detected_factors then
    CrisisLevel.medium
  else if risk_score > 0.2 ∨ detected_factors.length ≥ 1 then
    CrisisLevel.low
  else
    CrisisLevel.none

/-- The `clear_indicators` list of `_calculate_confidence`. -/
def clear_indicators : List String :=
  ["i want to", "i am going to", "i plan to", "i will"]

/-- `_calculate_confidence`: confidence in the assessment, from the raw
(not lower-cased) content, the detected factors and the risk score. -/
def calculateConfidence (content : String) (detected_factors : List RiskFactor)
    (risk_score : ℚ) : ℚ :=
  let confidence : ℚ := 0.5
  let confidence := if 50 < content.trim.length then confidence + 0.1 else confidence
  let confidence := if 100 < content.trim.length then confidence + 0.1 else confidence
  let confidence := confidence + min ((detected_factors.length : ℚ) * 0.15) 0.3
  let confidence := confidence + risk_score * 0.2
  let confidence :=
    if clear_indicators.any (fun s => occursIn s content.toLower) then
      confidence + 0.2
    else confidence
  min confidence 1

/-- `_generate_interventions`: level-specific base list, then
factor-specific additions, truncated to the first 5. -/
def generateInterventions (crisis_level : CrisisLevel)
    (detected_factors : List RiskFactor) : List String :=
  let interventions : List String := []
  let interventions :=
    if crisis_level = CrisisLevel.critical then
      interventions ++
        [ "Immediate professional intervention required",
          "Contact emergency services (911) if in immediate danger",
          "Call 988 Suicide & Crisis Lifeline immediately",
          "Do not leave person alone",
          "Remove any means of self-harm" ]
    else if crisis_level = CrisisLevel.high then
      interventions ++
        [ "Contact crisis support immediately: 988",
          "Reach out to a trusted person",
          "Consider emergency room if feeling unsafe",
          "Remove access to means of harm",
          "Create safety plan" ]
    else if crisis_level = CrisisLevel.medium then
      interventions ++
        [ "Connect with mental health professional",
          "Use crisis text line: Text HOME to 741741",
          "Practice grounding techniques",
          "Reach out to support network",
          "Schedule therapy appointment" ]
    else if crisis_level = CrisisLevel.low then
      interventions ++
        [ "Monitor mood closely",
          "Practice self-care activities",
          "Consider counseling",
          "Use stress reduction techniques",
          "Stay connected with others" ]
    else interventions
  let interventions :=
    if RiskFactor.isolation ∈ detected_factors then
      interventions ++ ["Focus on social connection and support"]
    else interventions
  let interventions :=
    if RiskFactor.substance_abuse ∈ detected_factors then
      interventions ++ ["Consider addiction treatment resources"]
    else interventions
  let interventions :=
    if RiskFactor.trauma ∈ detected_factors then
      interventions ++ ["Seek trauma-informed therapy"]
    else interventions
  interventions.take 5

/-- `_initialize_safety_resources`: the static resource catalog,
transcribed verbatim. -/
def safety_resources : List SafetyResource :=
  [ { name := "988 Suicide & Crisis Lifeline", type := "hotline",
      contact := "988", availability := "24/7",
      description := "Free, confidential crisis counseling",
      country_code := "US", is_emergency := true },
    { name := "Crisis Text Line", type := "text",
      contact := "Text HOME to 741741", availability := "24/7",
      description := "Crisis counseling via text",
      country_code := "US", is_emergency := true },
    { name := "Samaritans", type := "hotline",
      contact := "116 123", availability := "24/7",
      description := "Free support for emotional distress",
      country_code := "UK", is_emergency := true },
    { name := "Psychology Today Therapist Finder", type := "website",
      contact := "https://www.psychologytoday.com/us/therapists",
      availability := "24/7 online",
      description := "Find mental health professionals near you",
      country_code := "US" },
    { name := "BetterHelp Online Therapy", type := "website",
      contact := "https://www.betterhelp.com", availability := "24/7 online",
      description := "Professional online counseling", country_code := "US" },
    { name := "National Suicide Prevention Lifeline", type := "website",
      contact := "https://suicidepreventionlifeline.org",
      availability := "24/7 online",
      description := "Resources and support information", country_code := "US" },
    { name := "Mind (UK)", type := "website",
      contact := "https://www.mind.org.uk", availability := "24/7 online",
      description := "Mental health information and support",
      country_code := "UK" },
    { name := "MY3 Support Network App", type := "app",
      contact := "Download from app store", availability := "Always available",
      description := "Create personal safety plan", country_code := "US" },
    { name := "Safety Plan App", type := "app",
      contact := "Download from app store", availability := "Always available",
      description := "Evidence-based safety planning", country_code := "US" } ]

/-- Projection of a `SafetyResource` to the output dictionary shape. -/
def resourceToOut (r : SafetyResource) : ResourceOut :=
  { name := r.name, type := r.type, contact := r.contact,
    description := r.description, availability := r.availability }

/-- `_get_relevant_resources`: up to 3 emergency resources for levels
above LOW, then up to 2 general resources. -/
def getRelevantResources (crisis_level : CrisisLevel)
    (_detected_factors : List RiskFactor) : List ResourceOut :=
  let resources : List ResourceOut := []
  let resources :=
    if crisis_level ≠ CrisisLevel.none ∧ crisis_level ≠ CrisisLevel.low then
      resources ++
        ((safety_resources.filter (fun r => r.is_emergency)).take 3).map resourceToOut
    else resources
  resources ++
    ((safety_resources.filter (fun r => !r.is_emergency)).take 2).map resourceToOut

/-- One iteration of the pattern-matching loop of `assess_crisis_risk`:
accumulate `(detected_factors, risk_score, immediate_action)`. -/
def patternStep (content_lower : String) (acc : List RiskFactor × ℚ × Bool)
    (p : CrisisKeywordPattern) : List RiskFactor × ℚ × Bool :=
  let pattern_score := evaluatePattern content_lower p
  if 0 < pattern_score then
    (acc.1 ++ [p.risk_factor], acc.2.1 + pattern_score,
     acc.2.2 || (p.requires_immediate_action && decide (0.7 < pattern_score)))
  else acc

/-- The pattern-matching loop of `assess_crisis_risk`: fold over the
catalog. -/
def patternLoop (content_lower : String) : List RiskFactor × ℚ × Bool :=
  crisis_patterns.foldl (patternStep content_lower) ([], 0, false)

/-- The body of the `try` block of `assess_crisis_risk` (pure part; the
database side effect of `_store_crisis_event` swallows its own errors in
the source and does not influence the returned value). -/
def computeAssessment (user_id content : String) : RiskAssessment :=
  let content_lower := content.toLower
  let loop := patternLoop content_lower
  let detected_factors := loop.1
  let immediate_action := loop.2.2
  let risk_score := min loop.2.1 1
  let crisis_level := determineCrisisLevel risk_score detected_factors
  let confidence := calculateConfidence content detected_factors risk_score
  let interventions := generateInterventions crisis_level detected_factors
  let resources := getRelevantResources crisis_level detected_factors
  { user_id := user_id,
    trigger_content := content,
    crisis_level := crisis_level,
    risk_score := risk_score,
    detected_factors := detected_factors,
    confidence := confidence,
    immediate_action_required := immediate_action,
    recommended_interventions := interventions,
    safety_resources := resources,
    escalation_needed := decide ((crisis_level = CrisisLevel.high ∨
      crisis_level = CrisisLevel.critical) ∨ immediate_action = true ∨
      0.8 < risk_score) }

/-- `_create_safe_default_assessment`: the assessment returned on an
internal error. -/
def createSafeDefaultAssessment (user_id content : String) : RiskAssessment :=
  { user_id := user_id,
    trigger_content := content,
    crisis_level := CrisisLevel.none,
    risk_score := 0,
    detected_factors := [],
    confidence := 0,
    immediate_action_required := false,
    recommended_interventions := ["Contact support if you need help"],
    safety_resources :=
      [ { name := "988 Suicide & Crisis Lifeline", type := "hotline",
          contact := "988", description := "24/7 crisis support",
          availability := "24/7" } ],
    escalation_needed := false }

/-- The steps of `assess_crisis_risk` inside its `try` block, in an
explicit exception monad.  The pure computation is total; `failure`
injects a hypothetical internal exception at the start of the block,
standing for any step of the body raising. -/
def assessSteps (user_id content : String) (failure : Option String) :
    Except String RiskAssessment :=
  match failure with
  | Option.some msg => Except.error msg
  | Option.none => Except.ok (computeAssessment user_id content)

/-- `assess_crisis_risk`: `try` body plus the `except` handler returning
the safe default assessment. -/
def assess_crisis_risk (user_id content : String)
    (failure : Option String := Option.none) : RiskAssessment :=
  match assessSteps user_id content failure with
  | Except.ok assessment => assessment
  | Except.error _ => createSafeDefaultAssessment user_id content

/-- Result dictionary of `escalate_crisis` (the `timestamp` field, a wall
clock read, is not modelled). -/
structure EscalationResult where
  escalated : Bool
  escalation_type : String
  actions_taken : List String
  next_steps : List String
deriving DecidableEq, Repr

/-- `escalate_crisis`: escalation record per crisis level (happy path;
the `_update_crisis_event_escalation` side effect swallows its own errors
in the source and does not influence the returned value). -/
def escalate_crisis (assessment : RiskAssessment)
    (escalation_type : String := "professional") : EscalationResult :=
  let result : EscalationResult :=
    { escalated := true, escalation_type := escalation_type,
      actions_taken := [], next_steps := [] }
  if assessment.crisis_level = CrisisLevel.critical then
    { result with
      actions_taken := result.actions_taken ++
        [ "Crisis team notified immediately",
          "Emergency contact attempted",
          "Professional intervention initiated",
          "User flagged for immediate follow-up" ],
      next_steps := result.next_steps ++
        [ "Emergency services may be contacted",
          "Immediate professional assessment scheduled",
          "Family/emergency contacts will be notified" ] }
  else if assessment.crisis_level = CrisisLevel.high then
    { result with
      actions_taken := result.actions_taken ++
        [ "Mental health professional notified",
          "Crisis counselor assigned",
          "Enhanced monitoring activated" ],
      next_steps := result.next_steps ++
        [ "Professional will contact within 2 hours",
          "Safety plan development scheduled",
          "Follow-up appointment arranged" ] }
  else result

/-- The crisis-level decision table as the spec words it, evaluated
top-down with the first matching row winning: CRITICAL if
SUICIDAL_IDEATION is detected and `risk_score > 0.8`; else HIGH if
`risk_score > 0.7` or SUICIDAL_IDEATION or SELF_HARM is present or
(HOPELESSNESS is present and `risk_score > 0.6`); else MEDIUM if
`risk_score > 0.4` or at least 2 factors are detected or HOPELESSNESS is
present; else LOW if `risk_score > 0.2` or at least 1 factor is detected;
else NONE. -/
def specCrisisLevelTable (risk_score : ℚ) (detected_factors : List RiskFactor) :
    CrisisLevel :=
  if RiskFactor.suicidal_ideation ∈ detected_factors ∧ risk_score > 0.8 then
    CrisisLevel.critical
  else if risk_score > 0.7 ∨
      RiskFactor.suicidal_ideation ∈ detected_factors ∨
      RiskFactor.self_harm ∈ detected_factors ∨
      (RiskFactor.hopelessness ∈ detected_factors ∧ risk_score > 0.6) then
    CrisisLevel.high
  else if risk_score > 0.4 ∨ detected_factors.length ≥ 2 ∨
      RiskFactor.hopelessness ∈ detected_factors then
    CrisisLevel.medium
  else if risk_score > 0.2 ∨ detected_factors.length ≥ 1 then
    CrisisLevel.low
  else
    CrisisLevel.none

/-- The level-specific base intervention list, as the spec describes it
(the `if/elif` chain of `_generate_interventions`). -/
def baseInterventionList : CrisisLevel → List String
  | CrisisLevel.critical =>
      [ "Immediate professional intervention required",
        "Contact emergency services (911) if in immediate danger",
        "Call 988 Suicide & Crisis Lifeline immediately",
        "Do not leave person alone",
        "Remove any means of self-harm" ]
  | CrisisLevel.high =>
      [ "Contact crisis support immediately: 988",
        "Reach out to a trusted person",
        "Consider emergency room if feeling unsafe",
        "Remove access to means of harm",
        "Create safety plan" ]
  | CrisisLevel.medium =>
      [ "Connect with mental health professional",
        "Use crisis text line: Text HOME to 741741",
        "Practice grounding techniques",
        "Reach out to support network",
        "Schedule therapy appointment" ]
  | CrisisLevel.low =>
      [ "Monitor mood closely",
        "Practice self-care activities",
        "Consider counseling",
        "Use stress reduction techniques",
        "Stay connected with others" ]
  | CrisisLevel.none => []

/-- The factor-specific intervention additions, as the spec describes
them, in the source's fixed order ISOLATION, SUBSTANCE_ABUSE, TRAUMA. -/
def factorAdditions (detected_factors : List RiskFactor) : List String :=
  (if RiskFactor.isolation ∈ detected_factors then
    ["Focus on social connection and support"] else []) ++
  (if RiskFactor.substance_abuse ∈ detected_factors then
    ["Consider addiction treatment resources"] else []) ++
  (if RiskFactor.trauma ∈ detected_factors then
    ["Seek trauma-informed therapy"] else [])

/-- The ISOLATION pattern (index 5 of the catalog), `severity_weight
0.5`. -/
def isolationPattern : CrisisKeywordPattern :=
  crisis_patterns.get ⟨5, by decide⟩

/-- A concrete HIGH-level assessment, used to instantiate escalation
properties. -/
def sampleHighAssessment : RiskAssessment :=
  { user_id := "user-1",
    trigger_content := "i feel hopeless",
    crisis_level := CrisisLevel.high,
    risk_score := 0.75,
    detected_factors := [RiskFactor.self_harm],
    confidence := 0.8,
    immediate_action_required := false,
    recommended_interventions := [],
    safety_resources := [],
    escalation_needed := true }

/-! ## Helper lemmas -/

lemma contextBonus_nonneg (content : String) (p : CrisisKeywordPattern) :
    0 ≤ contextBonus content p := by
  unfold contextBonus
  positivity

/-- Every catalog pattern has a positive weight of at most 1. -/
lemma catalog_weight_pos_le_one :
    ∀ p ∈ crisis_patterns, 0 < p.severity_weight ∧ p.severity_weight ≤ 1 := by
  with_unfolding_all decide

/-- The pattern score of a single-keyword match, before and after the
branch on negation. -/
lemma evaluatePattern_single (content : String) (p : CrisisKeywordPattern)
    (h1 : keywordMatchCount content p = 1) :
    evaluatePattern content p =
      (if negationFound content = true then
        min ((p.severity_weight * 0.3 +
          min (contextBonus content p) (p.severity_weight * 0.3)) * 0.7) 1
      else
        min (p.severity_weight * 0.3 +
          min (contextBonus content p) (p.severity_weight * 0.3)) 1) := by
  unfold evaluatePattern
  rw [h1]
  by_cases hneg : negationFound content = true <;> simp [hneg]

/-- The negation-free pattern score of a single-keyword match. -/
lemma evaluatePatternNoNegation_single (content : String)
    (p : CrisisKeywordPattern) (h1 : keywordMatchCount content p = 1) :
    evaluatePatternNoNegation content p =
      min (p.severity_weight * 0.3 +
        min (contextBonus content p) (p.severity_weight * 0.3)) 1 := by
  unfold evaluatePatternNoNegation
  rw [h1]
  simp

/-! ## C1 — the level-determination step equals the spec's decision table -/

/-- C1: for every `risk_score` in `[0,1]` and every list of detected
factors, `_determine_crisis_level` returns exactly the first matching row
of the spec's decision table evaluated top-down. -/
theorem determineCrisisLevel_matches_spec_table (risk_score : ℚ)
    (detected_factors : List RiskFactor)
    (_h0 : 0 ≤ risk_score) (_h1 : risk_score ≤ 1) :
    determineCrisisLevel risk_score detected_factors =
      specCrisisLevelTable risk_score detected_factors := rfl

/-- C1 witness: the equality at `risk_score = 1/2` with one detected
factor. -/
theorem determineCrisisLevel_matches_spec_table_witness :
    (0 : ℚ) ≤ 1/2 ∧ (1 : ℚ)/2 ≤ 1 ∧
    determineCrisisLevel (1/2) [RiskFactor.hopelessness] =
      specCrisisLevelTable (1/2) [RiskFactor.hopelessness] :=
  ⟨by norm_num, by norm_num,
    determineCrisisLevel_matches_spec_table (1/2) [RiskFactor.hopelessness]
      (by norm_num) (by norm_num)⟩

/-! ## C3 — does `severity_weight` bound a pattern's contribution? -/

/-- C3 counterexample: three ISOLATION keywords match at once, so the
pattern score `3 * (0.5 * 0.3) + 0.5 * 0.2 = 0.55` exceeds the pattern's
`severity_weight = 0.5`. -/
theorem evaluatePattern_exceeds_severity_weight :
    isolationPattern ∈ crisis_patterns ∧
    evaluatePattern "nobody cares all alone no friends" isolationPattern =
      11/20 ∧
    isolationPattern.severity_weight = 1/2 ∧
    ¬ evaluatePattern "nobody cares all alone no friends" isolationPattern ≤
        isolationPattern.severity_weight := by
  with_unfolding_all decide

/-- C3 amended: the per-pattern score is clamped to at most 1, and
`severity_weight` does bound the score whenever exactly one of the
pattern's keywords matches — but not in general. -/
theorem evaluatePattern_clamped_and_single_match_bounded (content : String) :
    ∀ p ∈ crisis_patterns,
      evaluatePattern content p ≤ 1 ∧
      (keywordMatchCount content p = 1 →
        evaluatePattern content p ≤ p.severity_weight) := by
  intro p hp
  obtain ⟨hw0, _⟩ := catalog_weight_pos_le_one p hp
  constructor
  · unfold evaluatePattern
    by_cases h : keywordMatchCount content p = 0
    · rw [if_pos h]
      norm_num
    · rw [if_neg h]
      exact min_le_right _ _
  · intro h1
    rw [evaluatePattern_single content p h1]
    have hcle : min (contextBonus content p) (p.severity_weight * 0.3) ≤
        p.severity_weight * 0.3 := min_le_right _ _
    have hc0 : 0 ≤ min (contextBonus content p) (p.severity_weight * 0.3) :=
      le_min (contextBonus_nonneg content p) (by nlinarith)
    by_cases hneg : negationFound content = true <;> simp only [hneg, if_true,
      if_false, ite_true, ite_false]
    · calc min ((p.severity_weight * 0.3 +
            min (contextBonus content p) (p.severity_weight * 0.3)) * 0.7) 1 ≤
          (p.severity_weight * 0.3 +
            min (contextBonus content p) (p.severity_weight * 0.3)) * 0.7 :=
            min_le_left _ _
        _ ≤ p.severity_weight := by nlinarith
    · calc min (p.severity_weight * 0.3 +
            min (contextBonus content p) (p.severity_weight * 0.3)) 1 ≤
          p.severity_weight * 0.3 +
            min (contextBonus content p) (p.severity_weight * 0.3) :=
            min_le_left _ _
        _ ≤ p.severity_weight := by nlinarith

/-- C3 amended witness: the SELF_HARM pattern, with the single keyword
match `"cutting"`, scores at most its weight `0.9`. -/
theorem evaluatePattern_clamped_and_single_match_bounded_witness :
    (crisis_patterns.get ⟨1, by decide⟩) ∈ crisis_patterns ∧
    keywordMatchCount "i thought about cutting" (crisis_patterns.get ⟨1, by decide⟩) = 1 ∧
    evaluatePattern "i thought about cutting" (crisis_patterns.get ⟨1, by decide⟩) ≤ 1 ∧
    evaluatePattern "i thought about cutting" (crisis_patterns.get ⟨1, by decide⟩) ≤
      (crisis_patterns.get ⟨1, by decide⟩).severity_weight :=
  ⟨by with_unfolding_all decide, by with_unfolding_all decide,
    (evaluatePattern_clamped_and_single_match_bounded "i thought about cutting"
      (crisis_patterns.get ⟨1, by decide⟩) (by with_unfolding_all decide)).1,
    (evaluatePattern_clamped_and_single_match_bounded "i thought about cutting"
      (crisis_patterns.get ⟨1, by decide⟩) (by with_unfolding_all decide)).2
      (by with_unfolding_all decide)⟩

/-! ## C7 — interventions are the first 5 of base ++ factor additions -/

/-- C7: for every crisis level and factor list, the recommended
interventions are exactly the first 5 elements of the level-specific base
list concatenated with the factor-specific additions, so their number
never exceeds 5. -/
theorem generateInterventions_truncated_concat (crisis_level : CrisisLevel)
    (detected_factors : List RiskFactor) :
    generateInterventions crisis_level detected_factors =
      (baseInterventionList crisis_level ++ factorAdditions detected_factors).take 5 ∧
    (generateInterventions crisis_level detected_factors).length ≤ 5 := by
  have heq : generateInterventions crisis_level detected_factors =
      (baseInterventionList crisis_level ++ factorAdditions detected_factors).take 5 := by
    by_cases h1 : RiskFactor.isolation ∈ detected_factors <;>
      by_cases h2 : RiskFactor.substance_abuse ∈ detected_factors <;>
      by_cases h3 : RiskFactor.trauma ∈ detected_factors <;>
      cases crisis_level <;>
      simp [generateInterventions, baseInterventionList, factorAdditions,
        h1, h2, h3]
  exact ⟨heq, heq ▸ List.length_take_le 5 _⟩

/-! ## C9 — escalation results per crisis level -/

/-- C9: a HIGH assessment escalated as `"professional"` yields
`escalated = true`, a crisis-counselor-assignment action and non-empty
next steps; any level other than HIGH and CRITICAL yields
`escalated = true` with empty action and next-step lists. -/
theorem escalate_crisis_level_behavior (assessment : RiskAssessment) :
    (assessment.crisis_level = CrisisLevel.high →
      (escalate_crisis assessment "professional").escalated = true ∧
      "Crisis counselor assigned" ∈
        (escalate_crisis assessment "professional").actions_taken ∧
      (escalate_crisis assessment "professional").next_steps ≠ []) ∧
    (assessment.crisis_level ≠ CrisisLevel.high →
      assessment.crisis_level ≠ CrisisLevel.critical →
      ∀ escalation_type : String,
        (escalate_crisis assessment escalation_type).escalated = true ∧
        (escalate_crisis assessment escalation_type).actions_taken = [] ∧
        (escalate_crisis assessment escalation_type).next_steps = []) := by
  constructor
  · intro h
    simp [escalate_crisis, h]
  · intro h1 h2 escalation_type
    simp [escalate_crisis, h1, h2]

/-- C9 witness: a concrete HIGH assessment and the concrete NONE-level
safe default assessment. -/
theorem escalate_crisis_level_behavior_witness :
    ("Crisis counselor assigned" ∈
      (escalate_crisis sampleHighAssessment "professional").actions_taken) ∧
    (escalate_crisis sampleHighAssessment "professional").next_steps ≠ [] ∧
    (escalate_crisis (createSafeDefaultAssessment "user-1" "hello")
      "professional").escalated = true ∧
    (escalate_crisis (createSafeDefaultAssessment "user-1" "hello")
      "professional").actions_taken = [] :=
  ⟨((escalate_crisis_level_behavior sampleHighAssessment).1 rfl).2.1,
    ((escalate_crisis_level_behavior sampleHighAssessment).1 rfl).2.2,
    ((escalate_crisis_level_behavior (createSafeDefaultAssessment "user-1" "hello")).2
      (by simp [createSafeDefaultAssessment]) (by simp [createSafeDefaultAssessment])
      "professional").1,
    ((escalate_crisis_level_behavior (createSafeDefaultAssessment "user-1" "hello")).2
      (by simp [createSafeDefaultAssessment]) (by simp [createSafeDefaultAssessment])
      "professional").2.1⟩

/-! ## C4 — negation dampens but never zeroes a single-keyword match -/

/-- C4: for every catalog pattern and content matching exactly one of its
keywords, when a negation term is present the pattern score equals `0.7`
times the score the same content would receive without the negation step,
strictly below it and strictly above zero. -/
theorem evaluatePattern_negation_dampens (p : CrisisKeywordPattern)
    (hp : p ∈ crisis_patterns) (content : String)
    (h1 : keywordMatchCount content p = 1)
    (hneg : negationFound content = true) :
    evaluatePattern content p =
      0.7 * evaluatePatternNoNegation content p ∧
    evaluatePattern content p < evaluatePatternNoNegation content p ∧
    0 < evaluatePattern content p := by
  obtain ⟨hw0, hw1⟩ := catalog_weight_pos_le_one p hp
  have hc0 : 0 ≤ min (contextBonus content p) (p.severity_weight * 0.3) :=
    le_min (contextBonus_nonneg content p) (by nlinarith)
  have hcle : min (contextBonus content p) (p.severity_weight * 0.3) ≤
      p.severity_weight * 0.3 := min_le_right _ _
  have hpre0 : 0 < p.severity_weight * 0.3 +
      min (contextBonus content p) (p.severity_weight * 0.3) := by nlinarith
  have hpre1 : p.severity_weight * 0.3 +
      min (contextBonus content p) (p.severity_weight * 0.3) < 1 := by nlinarith
  have hnn : evaluatePatternNoNegation content p =
      p.severity_weight * 0.3 +
        min (contextBonus content p) (p.severity_weight * 0.3) := by
    rw [evaluatePatternNoNegation_single content p h1]
    exact min_eq_left (le_of_lt hpre1)
  have hev : evaluatePattern content p =
      (p.severity_weight * 0.3 +
        min (contextBonus content p) (p.severity_weight * 0.3)) * 0.7 := by
    rw [evaluatePattern_single content p h1]
    rw [if_pos hneg]
    exact min_eq_left (by nlinarith)
  refine ⟨?_, ?_, ?_⟩
  · rw [hev, hnn]; ring
  · rw [hev, hnn]; nlinarith
  · rw [hev]; nlinarith

/-- C4 witness: the HOPELESSNESS pattern on `"i will not give up"` — one
keyword (`"give up"`) matches and the negation term `"not"` is present.
The dampened score is `0.7 * 0.24 = 0.168`. -/
theorem evaluatePattern_negation_dampens_witness :
    (crisis_patterns.get ⟨2, by decide⟩) ∈ crisis_patterns ∧
    keywordMatchCount "i will not give up" (crisis_patterns.get ⟨2, by decide⟩) = 1 ∧
    negationFound "i will not give up" = true ∧
    evaluatePattern "i will not give up" (crisis_patterns.get ⟨2, by decide⟩) =
      0.7 * evaluatePatternNoNegation "i will not give up"
        (crisis_patterns.get ⟨2, by decide⟩) ∧
    evaluatePattern "i will not give up" (crisis_patterns.get ⟨2, by decide⟩) <
      evaluatePatternNoNegation "i will not give up"
        (crisis_patterns.get ⟨2, by decide⟩) ∧
    0 < evaluatePattern "i will not give up" (crisis_patterns.get ⟨2, by decide⟩) :=
  ⟨List.get_mem _ _ _, by decide, by decide,
    evaluatePattern_negation_dampens (crisis_patterns.get ⟨2, by decide⟩)
      (List.get_mem _ _ _) "i will not give up" (by decide) (by decide)⟩

/-! ## Loop invariants of the assessment pipeline -/

/-- The accumulated risk score of the pattern loop stays non-negative:
each taken branch adds a strictly positive pattern score. -/
lemma foldl_patternStep_score_nonneg (content : String) :
    ∀ (ps : List CrisisKeywordPattern) (acc : List RiskFactor × ℚ × Bool),
      0 ≤ acc.2.1 → 0 ≤ (ps.foldl (patternStep content) acc).2.1 := by
  intro ps
  induction ps with
  | nil => intro acc h; simpa using h
  | cons p ps ih =>
    intro acc h
    rw [List.foldl_cons]
    apply ih
    simp only [patternStep]
    split
    case isTrue hs => dsimp only; linarith
    case isFalse hs => exact h

/-- When every pattern of the list scores zero, the loop leaves the
accumulator unchanged. -/
lemma foldl_patternStep_no_match (content : String) :
    ∀ (ps : List CrisisKeywordPattern) (acc : List RiskFactor × ℚ × Bool),
      (∀ p ∈ ps, evaluatePattern content p = 0) →
      ps.foldl (patternStep content) acc = acc := by
  intro ps
  induction ps with
  | nil => intro acc _; rfl
  | cons p ps ih =>
    intro acc h
    rw [List.foldl_cons]
    have hstep : patternStep content acc p = acc := by
      unfold patternStep
      rw [h p (List.mem_cons_self p ps)]
      norm_num
    rw [hstep]
    exact ih acc (fun q hq => h q (List.mem_cons_of_mem p hq))

/-- A pattern with no matching keyword scores zero. -/
lemma evaluatePattern_eq_zero_of_no_keyword (content : String)
    (p : CrisisKeywordPattern)
    (h : ∀ kw ∈ p.keywords, occursIn kw content = false) :
    evaluatePattern content p = 0 := by
  have hk : keywordMatchCount content p = 0 := by
    unfold keywordMatchCount
    rw [List.length_eq_zero, List.filter_eq_nil_iff]
    intro a ha
    simp [h a ha]
  unfold evaluatePattern
  rw [if_pos hk]

/-- The non-error path of `assess_crisis_risk` is `computeAssessment`. -/
lemma assess_crisis_risk_eq_compute (user_id content : String) :
    assess_crisis_risk user_id content = computeAssessment user_id content := rfl

/-! ## C5 — no keyword match anywhere means a NONE assessment -/

/-- C5: when no keyword of any catalog pattern occurs in the lower-cased
content, the assessment is NONE with a zero risk score and no detected
factors (context modifiers and negation terms alone never score). -/
theorem assess_no_keyword_is_none (user_id content : String)
    (h : ∀ p ∈ crisis_patterns, ∀ kw ∈ p.keywords,
      occursIn kw content.toLower = false) :
    (assess_crisis_risk user_id content).crisis_level = CrisisLevel.none ∧
    (assess_crisis_risk user_id content).risk_score = 0 ∧
    (assess_crisis_risk user_id content).detected_factors = [] := by
  have hloop : patternLoop content.toLower = ([], 0, false) :=
    foldl_patternStep_no_match content.toLower crisis_patterns ([], 0, false)
      (fun p hp => evaluatePattern_eq_zero_of_no_keyword content.toLower p (h p hp))
  rw [assess_crisis_risk_eq_compute]
  have hmin : min (0:ℚ) 1 = 0 := min_eq_left (by norm_num)
  simp only [computeAssessment, hloop, hmin]
  refine ⟨?_, ?_, ?_⟩ <;> first
    | rfl
    | trivial
    | with_unfolding_all decide

/-- C5 witness: `"Hello there"` matches no catalog keyword. -/
theorem assess_no_keyword_is_none_witness :
    (∀ p ∈ crisis_patterns, ∀ kw ∈ p.keywords,
      occursIn kw (String.toLower "Hello there") = false) ∧
    (assess_crisis_risk "user-1" "Hello there").crisis_level = CrisisLevel.none ∧
    (assess_crisis_risk "user-1" "Hello there").risk_score = 0 ∧
    (assess_crisis_risk "user-1" "Hello there").detected_factors = [] :=
  ⟨by with_unfolding_all decide,
    assess_no_keyword_is_none "user-1" "Hello there" (by with_unfolding_all decide)⟩

/-! ## C10 — the non-error path never reports confidence below 0.5 -/

/-- The confidence computation is bounded below by its base value when
the risk score is non-negative. -/
lemma calculateConfidence_ge_half (content : String)
    (detected_factors : List RiskFactor) (risk_score : ℚ)
    (h : 0 ≤ risk_score) :
    1/2 ≤ calculateConfidence content detected_factors risk_score := by
  have h1 : 0 ≤ min ((detected_factors.length : ℚ) * 0.15) 0.3 :=
    le_min (by positivity) (by norm_num)
  have h2 : 0 ≤ risk_score * 0.2 := by nlinarith
  unfold calculateConfidence
  refine le_min ?_ (by norm_num)
  by_cases c1 : 50 < content.trim.length <;>
    by_cases c2 : 100 < content.trim.length <;>
    by_cases c3 : (clear_indicators.any fun s => occursIn s content.toLower) = true <;>
    simp only [c1, c2, c3, if_true, if_false, ite_true, ite_false,
      Bool.false_eq_true] <;>
    linarith

/-- C10: every assessment produced by the non-error path carries
confidence at least `0.5`; the error-path safe default carries `0.0`. -/
theorem assess_confidence_at_least_half (user_id content : String) :
    1/2 ≤ (assess_crisis_risk user_id content).confidence ∧
    (createSafeDefaultAssessment user_id content).confidence = 0 := by
  constructor
  · have hrs : 0 ≤ min (patternLoop content.toLower).2.1 1 :=
      le_min (foldl_patternStep_score_nonneg content.toLower crisis_patterns
        ([], 0, false) (le_refl 0)) (by norm_num)
    exact calculateConfidence_ge_half content (patternLoop content.toLower).1
      (min (patternLoop content.toLower).2.1 1) hrs
  · rfl

/-! ## C8 — confidence is monotone in factors and risk score, clamped -/

/-- C8: with the content string fixed, confidence never decreases when
the number of detected factors grows or when the risk score grows, and it
never exceeds `1.0`. -/
theorem calculateConfidence_monotone_clamped (content : String) :
    (∀ (d₁ d₂ : List RiskFactor) (risk_score : ℚ),
      d₁.length ≤ d₂.length →
      calculateConfidence content d₁ risk_score ≤
        calculateConfidence content d₂ risk_score) ∧
    (∀ (d : List RiskFactor) (rs₁ rs₂ : ℚ), rs₁ ≤ rs₂ →
      calculateConfidence content d rs₁ ≤ calculateConfidence content d rs₂) ∧
    (∀ (d : List RiskFactor) (risk_score : ℚ),
      calculateConfidence content d risk_score ≤ 1) := by
  refine ⟨?_, ?_, ?_⟩
  · intro d₁ d₂ risk_score hlen
    have hmono : min ((d₁.length : ℚ) * 0.15) 0.3 ≤
        min ((d₂.length : ℚ) * 0.15) 0.3 :=
      min_le_min (mul_le_mul_of_nonneg_right (by exact_mod_cast hlen)
        (by norm_num)) le_rfl
    unfold calculateConfidence
    by_cases c1 : 50 < content.trim.length <;>
      by_cases c2 : 100 < content.trim.length <;>
      by_cases c3 : (clear_indicators.any fun s => occursIn s content.toLower) = true <;>
      simp only [c1, c2, c3, if_true, if_false, ite_true, ite_false,
        Bool.false_eq_true] <;>
      exact min_le_min (by linarith) le_rfl
  · intro d rs₁ rs₂ hrs
    have hmul : rs₁ * 0.2 ≤ rs₂ * 0.2 :=
      mul_le_mul_of_nonneg_right hrs (by norm_num)
    unfold calculateConfidence
    by_cases c1 : 50 < content.trim.length <;>
      by_cases c2 : 100 < content.trim.length <;>
      by_cases c3 : (clear_indicators.any fun s => occursIn s content.toLower) = true <;>
      simp only [c1, c2, c3, if_true, if_false, ite_true, ite_false,
        Bool.false_eq_true] <;>
      exact min_le_min (by linarith) le_rfl
  · intro d risk_score
    unfold calculateConfidence
    exact min_le_right _ _

/-- C8 witness: concrete factor lists of length 0 and 1, and concrete
risk scores `0 ≤ 1/4`, on a fixed content. -/
theorem calculateConfidence_monotone_clamped_witness :
    ([] : List RiskFactor).length ≤ [RiskFactor.anxiety].length ∧
    calculateConfidence "i feel ok" [] 0 ≤
      calculateConfidence "i feel ok" [RiskFactor.anxiety] 0 ∧
    (0 : ℚ) ≤ 1/4 ∧
    calculateConfidence "i feel ok" [RiskFactor.anxiety] 0 ≤
      calculateConfidence "i feel ok" [RiskFactor.anxiety] (1/4) ∧
    calculateConfidence "i feel ok" [RiskFactor.anxiety] (1/4) ≤ 1 :=
  ⟨by decide,
    (calculateConfidence_monotone_clamped "i feel ok").1 [] [RiskFactor.anxiety]
      0 (by decide),
    by norm_num,
    (calculateConfidence_monotone_clamped "i feel ok").2.1 [RiskFactor.anxiety]
      0 (1/4) (by norm_num),
    (calculateConfidence_monotone_clamped "i feel ok").2.2 [RiskFactor.anxiety]
      (1/4)⟩

/-! ## C2 — the critical scenario input (code-bug evidence) -/

/-- C2 evidence: on `"I have a plan to end my life tonight"` the code
yields `crisis_level = HIGH`, `escalation_needed = true` and
SUICIDAL_IDEATION among the detected factors, but
`immediate_action_required = false`: the single matched keyword
`"end my life"` plus the capped context bonus score `0.5`, below the
strict `> 0.7` gate of the immediate-action flag, contradicting the
spec's scenario and the repository's own test suite. -/
theorem assess_plan_to_end_life_tonight :
    (assess_crisis_risk "user-1" "I have a plan to end my life tonight").crisis_level =
      CrisisLevel.high ∧
    (assess_crisis_risk "user-1" "I have a plan to end my life tonight").risk_score =
      1/2 ∧
    (assess_crisis_risk "user-1" "I have a plan to end my life tonight").escalation_needed =
      true ∧
    RiskFactor.suicidal_ideation ∈
      (assess_crisis_risk "user-1" "I have a plan to end my life tonight").detected_factors ∧
    (assess_crisis_risk "user-1" "I have a plan to end my life tonight").immediate_action_required =
      false := by
  with_unfolding_all decide

/-! ## C6 — assess fails open to the safe default assessment -/

/-- C6: modelling an internal failure of the `try` body as an injected
exception, `assess_crisis_risk` is total and returns the safe default
assessment — NONE level, zero score, no escalation, the generic 988
support resource — whenever the failure fires, and `computeAssessment`
otherwise. -/
theorem assess_crisis_risk_fails_open (user_id content : String)
    (failure : Option String) :
    (failure = Option.none →
      assess_crisis_risk user_id content failure =
        computeAssessment user_id content) ∧
    (failure ≠ Option.none →
      assess_crisis_risk user_id content failure =
        createSafeDefaultAssessment user_id content) ∧
    (createSafeDefaultAssessment user_id content).crisis_level =
      CrisisLevel.none ∧
    (createSafeDefaultAssessment user_id content).risk_score = 0 ∧
    (createSafeDefaultAssessment user_id content).escalation_needed = false ∧
    (createSafeDefaultAssessment user_id content).safety_resources =
      [ { name := "988 Suicide & Crisis Lifeline", type := "hotline",
          contact := "988", description := "24/7 crisis support",
          availability := "24/7" } ] := by
  refine ⟨?_, ?_, rfl, rfl, rfl, rfl⟩
  · intro h
    rw [h]
    rfl
  · intro h
    cases failure with
    | none => exact absurd rfl h
    | some msg => rfl

/-- C6 witness: an injected failure on a concrete input returns the safe
default; no failure returns the computed assessment. -/
theorem assess_crisis_risk_fails_open_witness :
    assess_crisis_risk "user-1" "hello" (Option.some "database down") =
      createSafeDefaultAssessment "user-1" "hello" ∧
    assess_crisis_risk "user-1" "hello" Option.none =
      computeAssessment "user-1" "hello" :=
  ⟨((assess_crisis_risk_fails_open "user-1" "hello"
      (Option.some "database down")).2.1 (by simp)),
    ((assess_crisis_risk_fails_open "user-1" "hello" Option.none).1 rfl)⟩

end CrisisService
